import Mathlib

/-!
Verification of the ZENRIN geocoding client (`src/geocoding.py`).

The client's response handling, form-parameter assembly, header
construction and result formatting are embedded shallowly: parsed JSON
bodies become the inductive `Json`, Python dictionary/list/string
operations (`in`, `[...]`, `len`, truthiness, `str()`) become explicit
functions returning `Except PyErr` where Python would raise, and the
network is abstracted as a function from the assembled form parameters
to a `CallResult` (the outcome `requests.post` + `raise_for_status` +
`response.json()` would produce).
-/

set_option maxRecDepth 4000

/-- Exceptions the embedded Python fragments can raise. -/
inductive PyErr where
  | typeError : PyErr
  | keyError (k : String) : PyErr
  | indexError : PyErr
  | valueError (msg : String) : PyErr
  deriving DecidableEq, Repr

/-- Parsed JSON values, as produced by `response.json()`.  A JSON number
literal is an exact decimal: `num mant exp` denotes `mant / 10 ^ exp`
(`exp = 0` is an `int` in Python, `exp > 0` a `float`). -/
inductive Json where
  | null : Json
  | bool (b : Bool) : Json
  | num (mant : Int) (exp : Nat) : Json
  | str (s : String) : Json
  | arr (l : List Json) : Json
  | obj (m : List (String × Json)) : Json

/-- Python `str()` of a parsed JSON number: integers print as such, and
a float prints its decimal digits with the point `exp` places from the
right (the shortest-round-trip repr of the parsed float). -/
def numStr (mant : Int) (exp : Nat) : String :=
  let sign := if mant < 0 then "-" else ""
  let ds := toString mant.natAbs
  if exp = 0 then
    sign ++ ds
  else
    let padded := String.mk (List.replicate (exp + 1 - ds.length) '0') ++ ds
    sign ++ String.mk (padded.data.take (padded.length - exp)) ++ "." ++
      String.mk (padded.data.drop (padded.length - exp))

mutual

/-- Python `repr` of a JSON value (used when containers are interpolated
into f-strings). -/
def pyRepr : Json → String
  | .null => "None"
  | .bool true => "True"
  | .bool false => "False"
  | .num mant exp => numStr mant exp
  | .str s => "\x27" ++ s ++ "\x27"
  | .arr l => "[" ++ pyReprList l ++ "]"
  | .obj m => "\x7b" ++ pyReprPairs m ++ "\x7d"

/-- Comma-separated reprs of the elements of a list. -/
def pyReprList : List Json → String
  | [] => ""
  | [j] => pyRepr j
  | j :: rest => pyRepr j ++ ", " ++ pyReprList rest

/-- Comma-separated `'key': value` reprs of a dict's entries. -/
def pyReprPairs : List (String × Json) → String
  | [] => ""
  | [(k, v)] => "\x27" ++ k ++ "\x27: " ++ pyRepr v
  | (k, v) :: rest => "\x27" ++ k ++ "\x27: " ++ pyRepr v ++ ", " ++ pyReprPairs rest

end

/-- Python `str()` as used by f-string interpolation. -/
def pyStr : Json → String
  | .str s => s
  | .null => "None"
  | .bool true => "True"
  | .bool false => "False"
  | .num mant exp => numStr mant exp
  | .arr l => "[" ++ pyReprList l ++ "]"
  | .obj m => "\x7b" ++ pyReprPairs m ++ "\x7d"

/-- Python truthiness of a JSON value. -/
def pyTruthy : Json → Bool
  | .null => false
  | .bool b => b
  | .num mant _ => mant ≠ 0
  | .str s => s ≠ ""
  | .arr l => !l.isEmpty
  | .obj m => !m.isEmpty

/-- Substring test (`needle in haystack` on Python strings). -/
def strContains (hay needle : String) : Bool :=
  (hay.splitOn needle).length ≠ 1

/-- Python `key in v` for a string `key`: key membership for dicts,
element equality for lists, substring for strings, `TypeError` otherwise. -/
def pyContains (v : Json) (key : String) : Except PyErr Bool :=
  match v with
  | .obj m => .ok (List.lookup key m).isSome
  | .arr l => .ok (l.any (fun j => match j with | .str s => s == key | _ => false))
  | .str s => .ok (strContains s key)
  | _ => .error .typeError

/-- Python `v[key]` with a string subscript: dict lookup (raising
`KeyError` when absent), `TypeError` on any other value. -/
def pyGetStr (v : Json) (key : String) : Except PyErr Json :=
  match v with
  | .obj m =>
      match List.lookup key m with
      | some x => .ok x
      | none => .error (.keyError key)
  | _ => .error .typeError

/-- Python `v[i]` with a natural subscript: list/string indexing
(raising `IndexError` out of range), `KeyError` on dicts, `TypeError`
otherwise. -/
def pyGetNat (v : Json) (i : Nat) : Except PyErr Json :=
  match v with
  | .arr l =>
      match l.get? i with
      | some x => .ok x
      | none => .error .indexError
  | .str s =>
      match s.data.get? i with
      | some c => .ok (.str (String.mk [c]))
      | none => .error .indexError
  | .obj _ => .error (.keyError (toString i))
  | _ => .error .typeError

/-- Python `len(v)`: defined on strings, lists and dicts. -/
def pyLen (v : Json) : Except PyErr Nat :=
  match v with
  | .str s => .ok s.length
  | .arr l => .ok l.length
  | .obj m => .ok m.length
  | _ => .error .typeError

/-- The configuration fields of `ZenrinGeocoder` that `_get_headers`
reads (`api_key`, `auth_method`, `referer`, `token`); `none` models a
Python `None`. -/
structure GeocoderConfig where
  api_key : Option String
  auth_method : String
  referer : Option String
  token : Option String

/-- Truthiness of an `Optional[str]` field: `None` and `""` are falsy. -/
def optTruthy : Option String → Bool
  | some s => s ≠ ""
  | none => false

/-- `ZenrinGeocoder._get_headers`: builds the authentication headers in
insertion order. -/
def get_headers (c : GeocoderConfig) : List (String × String) :=
  (match c.api_key with
   | some k => if k ≠ "" then [("x-api-key", k)] else []
   | none => []) ++
  (if c.auth_method = "ip" then
    [("Authorization", "ip")]
  else if c.auth_method = "referer" then
    [("Authorization", "referer")] ++
      (match c.referer with
       | some r => if r ≠ "" then [("Referer", r)] else []
       | none => [])
  else if c.auth_method = "bearer" then
    (match c.token with
     | some t => if t ≠ "" then [("Authorization", "Bearer " ++ t)] else []
     | none => [])
  else [])

/-- Outcome of `requests.post` + `raise_for_status` + `response.json()`:
a parsed JSON body on 2xx success, an `HTTPError` (message from
`str(e)`, the response status code and its body text) when
`raise_for_status` raises on a non-2xx status, or any other
`RequestException` with its message on a transport failure. -/
inductive CallResult where
  | success (body : Json)
  | httpError (message : String) (status : Nat) (text : String)
  | transportError (message : String)

/-- Python `s[:n]` character slicing. -/
def strTake (s : String) (n : Nat) : String :=
  String.mk (s.data.take n)

/-- The `error_detail` dict built in the `HTTPError` handler:
`{'error': str(e), 'status_code': ..., 'response_text': response.text[:500]}`
(a real `requests` response always has a `text` attribute). -/
def errorDetail (message : String) (status : Nat) (text : String) : Json :=
  .obj [("error", .str message),
        ("status_code", .num status 0),
        ("response_text", .str (strTake text 500))]

/-- The success path of `ZenrinGeocoder.geocode` on the parsed body:
`if 'result' in data and 'item' in data['result']` (short-circuit), then
`items = data['result']['item']`; `if items and len(items) > 0` return
`items[0]`, else the "No results found" error value; otherwise return
the body as-is. -/
def geocodeSuccess (data : Json) : Except PyErr Json := do
  let g1 ← pyContains data "result"
  let g ← if g1 then do
      let r ← pyGetStr data "result"
      pyContains r "item"
    else pure false
  if g then do
    let r ← pyGetStr data "result"
    let items ← pyGetStr r "item"
    let cond ← if pyTruthy items then do
        let n ← pyLen items
        pure (decide (0 < n))
      else pure false
    if cond then
      pyGetNat items 0
    else
      pure (Json.obj [("error", Json.str "No results found")])
  else
    pure data

/-- The `try`/`except` dispatch of `ZenrinGeocoder.geocode` on the
outcome of the POST. -/
def geocodeRespond : CallResult → Except PyErr Json
  | .success data => geocodeSuccess data
  | .httpError msg st text => .ok (errorDetail msg st text)
  | .transportError msg => .ok (.obj [("error", .str msg)])

/-- The form parameters assembled by `ZenrinGeocoder.geocode`: values
are `Option String` (`none` would be a Python `None`; `geocode` itself
only ever stores strings). -/
def geocodeParams (address : String) (enc : Int) (use_kana use_multi_addr : Bool)
    (match_level : Option String) (datum : String) : List (String × Option String) :=
  [("word", some address), ("enc", some (toString enc)), ("datum", some datum)] ++
  (if use_kana then [("use_kana", some "true")] else []) ++
  (if use_multi_addr then [("use_multi_addr", some "true")] else []) ++
  (match match_level with
   | some s => if s ≠ "" then [("match_level", some s)] else []
   | none => [])

/-- `ZenrinGeocoder.geocode`: assembles the parameters, performs the one
POST (`net` maps the sent form parameters to the call's outcome) and
dispatches on the outcome. -/
def geocode (address : String) (enc : Int) (use_kana use_multi_addr : Bool)
    (match_level : Option String) (datum : String)
    (net : List (String × Option String) → CallResult) : Except PyErr Json :=
  geocodeRespond (net (geocodeParams address enc use_kana use_multi_addr match_level datum))

/-- The `**kwargs` accepted by `ZenrinGeocoder.geocode_batch`, mirroring
`geocode`'s keyword parameters; an outer `none` means the keyword was
not supplied, and `match_level`'s inner `Option` distinguishes a Python
`None` value from a string. -/
structure Kwargs where
  enc : Option Int
  datum : Option String
  use_kana : Option Bool
  use_multi_addr : Option Bool
  match_level : Option (Option String)

/-- The form parameters assembled by `ZenrinGeocoder.geocode_batch`:
`word` is the comma-join of the addresses; `use_kana`/`use_multi_addr`
are added when `kwargs.get(...)` is truthy, but `match_level` is added
whenever the key is present in `kwargs` — even with a `None` value. -/
def batchParams (addresses : List String) (kw : Kwargs) : List (String × Option String) :=
  [("word", some (String.intercalate "," addresses)),
   ("enc", some (toString (kw.enc.getD 0))),
   ("datum", some (kw.datum.getD "JGD"))] ++
  (if kw.use_kana = some true then [("use_kana", some "true")] else []) ++
  (if kw.use_multi_addr = some true then [("use_multi_addr", some "true")] else []) ++
  (match kw.match_level with
   | some v => [("match_level", v)]
   | none => [])

/-- The `try`/`except` dispatch of `ZenrinGeocoder.geocode_batch`: on
success the same `result.item` guard as `geocode`, but the whole item
value is returned, and the fallback/error returns are wrapped in
one-element lists. -/
def batchRespond : CallResult → Except PyErr Json
  | .success data => do
      let g1 ← pyContains data "result"
      let g ← if g1 then do
          let r ← pyGetStr data "result"
          pyContains r "item"
        else pure false
      if g then do
        let r ← pyGetStr data "result"
        pyGetStr r "item"
      else
        pure (Json.arr [data])
  | .httpError msg st text => .ok (.arr [errorDetail msg st text])
  | .transportError msg => .ok (.arr [.obj [("error", .str msg)]])

/-- `ZenrinGeocoder.geocode_batch`: raises `ValueError` on more than 100
addresses before the parameters are assembled or any call is made;
otherwise performs the one combined POST and dispatches. -/
def geocode_batch (addresses : List String) (kw : Kwargs)
    (net : List (String × Option String) → CallResult) : Except PyErr Json :=
  if 100 < addresses.length then
    .error (.valueError "Maximum 100 addresses per batch")
  else
    batchRespond (net (batchParams addresses kw))

/-- One presence-gated block of `format_single_result`:
`if key in item: output.append(f"label{item[key]}")`. -/
def fieldLine (item : Json) (key label : String) : Except PyErr (List String) := do
  let c ← pyContains item key
  if c then do
    let v ← pyGetStr item key
    pure [label ++ pyStr v]
  else
    pure []

/-- The coordinate block of `format_single_result`:
`if 'match_position' in item and item['match_position']:` then lines for
`coords[0]` and `coords[1]`. -/
def coordLines (item : Json) : Except PyErr (List String) := do
  let c ← pyContains item "match_position"
  let t ← if c then do
      let v ← pyGetStr item "match_position"
      pure (pyTruthy v)
    else pure false
  if t then do
    let coords ← pyGetStr item "match_position"
    let c0 ← pyGetNat coords 0
    let c1 ← pyGetNat coords 1
    pure ["経度: " ++ pyStr c0, "緯度: " ++ pyStr c1]
  else
    pure []

/-- The building block of `format_single_result`:
`if 'building_info' in item and item['building_info']:` then, when the
nested record has a `zid` key, a ZID line. -/
def zidLines (item : Json) : Except PyErr (List String) := do
  let c ← pyContains item "building_info"
  let t ← if c then do
      let v ← pyGetStr item "building_info"
      pure (pyTruthy v)
    else pure false
  if t then do
    let building ← pyGetStr item "building_info"
    let cz ← pyContains building "zid"
    if cz then do
      let z ← pyGetStr building "zid"
      pure ["ZID: " ++ pyStr z]
    else
      pure []
  else
    pure []

/-- `format_single_result`: the field-presence-gated blocks in source
order, joined with newlines. -/
def format_single_result (item : Json) : Except PyErr String := do
  let a ← fieldLine item "address" "住所: "
  let co ← coordLines item
  let ml ← fieldLine item "match_level" "マッチレベル: "
  let pc ← fieldLine item "post_code" "郵便番号: "
  let a2 ← fieldLine item "address2" "都道府県: "
  let a3 ← fieldLine item "address3" "市区町村: "
  let a4 ← fieldLine item "address4" "町域: "
  let z ← zidLines item
  pure (String.intercalate "\n" (a ++ co ++ ml ++ pc ++ a2 ++ a3 ++ a4 ++ z))

/-- The lines §4.2 of the spec describes: one line per present source
field, in fixed order, nothing for absent fields — coordinate lines only
for a coordinate pair, a ZID line only for a nested building record
carrying one. -/
def specLines (m : List (String × Json)) : List String :=
  (match List.lookup "address" m with
   | some v => ["住所: " ++ pyStr v]
   | none => []) ++
  (match List.lookup "match_position" m with
   | some (.arr (x :: y :: _)) => ["経度: " ++ pyStr x, "緯度: " ++ pyStr y]
   | _ => []) ++
  (match List.lookup "match_level" m with
   | some v => ["マッチレベル: " ++ pyStr v]
   | none => []) ++
  (match List.lookup "post_code" m with
   | some v => ["郵便番号: " ++ pyStr v]
   | none => []) ++
  (match List.lookup "address2" m with
   | some v => ["都道府県: " ++ pyStr v]
   | none => []) ++
  (match List.lookup "address3" m with
   | some v => ["市区町村: " ++ pyStr v]
   | none => []) ++
  (match List.lookup "address4" m with
   | some v => ["町域: " ++ pyStr v]
   | none => []) ++
  (match List.lookup "building_info" m with
   | some (.obj bm) =>
      if bm.isEmpty then []
      else
        match List.lookup "zid" bm with
        | some z => ["ZID: " ++ pyStr z]
        | none => []
   | _ => [])

/-- A well-formed `match_position` field: absent, falsy, or a list with
at least two elements (a coordinate pair). -/
def matchPosOk (m : List (String × Json)) : Prop :=
  ∀ v, List.lookup "match_position" m = some v →
    pyTruthy v = false ∨ ∃ x y l, v = Json.arr (x :: y :: l)

/-- A well-formed `building_info` field: absent, falsy, or a dict. -/
def buildingOk (m : List (String × Json)) : Prop :=
  ∀ v, List.lookup "building_info" m = some v →
    pyTruthy v = false ∨ ∃ bm, v = Json.obj bm

/-- Whether a returned value is an error value in the sense of §7 of the
spec: a dict carrying an `error` key. -/
def hasErrorKey : Json → Bool
  | .obj m => (List.lookup "error" m).isSome
  | _ => false

@[simp] lemma exceptOkBind {ε α β : Type} (a : α) (f : α → Except ε β) :
    (Except.ok a : Except ε α) >>= f = f a := rfl

@[simp] lemma exceptErrorBind {ε α β : Type} (e : ε) (f : α → Except ε β) :
    (Except.error e : Except ε α) >>= f = .error e := rfl

@[simp] lemma exceptPureEq {ε α : Type} (a : α) :
    (pure a : Except ε α) = Except.ok a := rfl

@[simp] lemma exceptMapOk {ε α β : Type} (f : α → β) (a : α) :
    f <$> (Except.ok a : Except ε α) = .ok (f a) := rfl

@[simp] lemma exceptMapError {ε α β : Type} (f : α → β) (e : ε) :
    f <$> (Except.error e : Except ε α) = (.error e : Except ε β) := rfl

lemma fieldLine_obj (m : List (String × Json)) (key label : String) :
    fieldLine (.obj m) key label =
      .ok (match List.lookup key m with
           | some v => [label ++ pyStr v]
           | none => []) := by
  cases h : List.lookup key m <;>
    simp [fieldLine, pyContains, pyGetStr, h]

lemma coordLines_obj (m : List (String × Json)) (h : matchPosOk m) :
    coordLines (.obj m) =
      .ok (match List.lookup "match_position" m with
           | some (.arr (x :: y :: _)) => ["経度: " ++ pyStr x, "緯度: " ++ pyStr y]
           | _ => []) := by
  cases hl : List.lookup "match_position" m with
  | none => simp [coordLines, pyContains, hl]
  | some v =>
    rcases h v hl with hf | ⟨x, y, l, rfl⟩
    · have lhs : coordLines (.obj m) = .ok [] := by
        simp [coordLines, pyContains, pyGetStr, hl, hf]
      rw [lhs]
      rcases v with _ | _ | _ | _ | l | _ <;> try rfl
      rcases l with _ | ⟨x, l⟩
      · rfl
      rcases l with _ | ⟨y, l⟩
      · rfl
      simp [pyTruthy] at hf
    · simp [coordLines, pyContains, pyGetStr, pyGetNat, pyTruthy, hl]

lemma zidLines_obj (m : List (String × Json)) (h : buildingOk m) :
    zidLines (.obj m) =
      .ok (match List.lookup "building_info" m with
           | some (.obj bm) =>
              if bm.isEmpty then []
              else
                match List.lookup "zid" bm with
                | some z => ["ZID: " ++ pyStr z]
                | none => []
           | _ => []) := by
  cases hl : List.lookup "building_info" m with
  | none => simp [zidLines, pyContains, hl]
  | some v =>
    rcases h v hl with hf | ⟨bm, rfl⟩
    · have lhs : zidLines (.obj m) = .ok [] := by
        simp [zidLines, pyContains, pyGetStr, hl, hf]
      rw [lhs]
      rcases v with _ | _ | _ | _ | _ | bm <;> try rfl
      have hbm : bm = [] := by simpa [pyTruthy] using hf
      subst hbm
      rfl
    · by_cases hbm : bm.isEmpty
      · simp [zidLines, pyContains, pyGetStr, pyTruthy, hl, hbm]
      · cases hz : List.lookup "zid" bm <;>
          simp [zidLines, pyContains, pyGetStr, pyTruthy, hl, hbm, hz]

lemma fsr_ok (m : List (String × Json)) (h1 : matchPosOk m) (h2 : buildingOk m) :
    format_single_result (.obj m) = .ok (String.intercalate "\n" (specLines m)) := by
  simp only [format_single_result, specLines, fieldLine_obj, coordLines_obj m h1,
    zidLines_obj m h2, exceptOkBind, exceptPureEq]


/-- C1: on a successful response whose parsed body has a `result.item`
array, `geocode` returns the array's first element, and the error value
with message "No results found" when the array is empty. -/
theorem c1_geocode_first_item_or_no_results
    (address : String) (enc : Int) (use_kana use_multi_addr : Bool)
    (match_level : Option String) (datum : String)
    (m r : List (String × Json)) (items : List Json)
    (hres : List.lookup "result" m = some (.obj r))
    (hitem : List.lookup "item" r = some (.arr items)) :
    geocode address enc use_kana use_multi_addr match_level datum
        (fun _ => .success (.obj m)) =
      .ok (match items with
           | [] => Json.obj [("error", Json.str "No results found")]
           | x :: _ => x) := by
  cases items with
  | nil =>
    simp [geocode, geocodeRespond, geocodeSuccess, pyContains, pyGetStr, pyTruthy,
      hres, hitem]
  | cons x rest =>
    simp [geocode, geocodeRespond, geocodeSuccess, pyContains, pyGetStr, pyTruthy,
      pyLen, pyGetNat, hres, hitem]

/-- C1 witness: a body `{"result": {"item": [{"address": "A"}]}}` yields
`{"address": "A"}`. -/
theorem c1_witness :
    geocode "東京都千代田区淡路町2-101" 0 false false none "JGD"
        (fun _ => .success (.obj [("result", .obj [("item",
          .arr [.obj [("address", .str "A")]])])])) =
      .ok (.obj [("address", .str "A")]) :=
  c1_geocode_first_item_or_no_results "東京都千代田区淡路町2-101" 0 false false none "JGD"
    [("result", .obj [("item", .arr [.obj [("address", .str "A")]])])]
    [("item", .arr [.obj [("address", .str "A")]])]
    [.obj [("address", .str "A")]] rfl rfl

/-- C2: for each of the three auth modes `_get_headers` returns exactly
the specified header set: `x-api-key` whenever an API key is configured;
mode `ip` sets `Authorization: ip`; mode `referer` sets
`Authorization: referer` plus a `Referer` header when a referer URL is
configured; mode `bearer` sets `Authorization: Bearer {token}` when a
token is configured and omits `Authorization` entirely otherwise. -/
theorem c2_auth_headers (k ref tok : String) (hk : k ≠ "") (hr : ref ≠ "") (ht : tok ≠ "") :
    get_headers ⟨some k, "ip", some ref, some tok⟩ =
      [("x-api-key", k), ("Authorization", "ip")] ∧
    get_headers ⟨none, "ip", none, none⟩ = [("Authorization", "ip")] ∧
    get_headers ⟨some k, "referer", some ref, some tok⟩ =
      [("x-api-key", k), ("Authorization", "referer"), ("Referer", ref)] ∧
    get_headers ⟨some k, "referer", none, none⟩ =
      [("x-api-key", k), ("Authorization", "referer")] ∧
    get_headers ⟨some k, "bearer", some ref, some tok⟩ =
      [("x-api-key", k), ("Authorization", "Bearer " ++ tok)] ∧
    get_headers ⟨some k, "bearer", some ref, none⟩ = [("x-api-key", k)] ∧
    (∀ c : GeocoderConfig, c.auth_method = "bearer" → c.token = none →
      "Authorization" ∉ (get_headers c).map Prod.fst) := by
  refine ⟨?_, ?_, ?_, ?_, ?_, ?_, ?_⟩
  · simp [get_headers, hk, hr]
  · simp [get_headers]
  · simp [get_headers, hk, hr]
  · simp [get_headers, hk]
  · simp [get_headers, hk, ht]
  · simp [get_headers, hk]
  · intro c hm htok
    obtain ⟨ak, am, rf, tk⟩ := c
    simp only at hm htok
    subst hm htok
    cases ak with
    | none => simp [get_headers]
    | some k2 =>
      by_cases h2 : k2 = "" <;> simp [get_headers, h2]

/-- C2 witness: concrete header sets for the three modes with key "K",
referer "https://x" and token "T". -/
theorem c2_witness :
    get_headers ⟨some "K", "referer", some "https://x", some "T"⟩ =
      [("x-api-key", "K"), ("Authorization", "referer"), ("Referer", "https://x")] ∧
    get_headers ⟨some "K", "ip", some "https://x", some "T"⟩ =
      [("x-api-key", "K"), ("Authorization", "ip")] ∧
    get_headers ⟨some "K", "bearer", some "https://x", some "T"⟩ =
      [("x-api-key", "K"), ("Authorization", "Bearer T")] :=
  have h := c2_auth_headers "K" "https://x" "T" (by decide) (by decide) (by decide)
  ⟨h.2.2.1, h.1, h.2.2.2.2.1⟩

/-- C3: `geocode_batch` on more than 100 addresses raises
`ValueError("Maximum 100 addresses per batch")` whatever the network
would answer — i.e. before any network call. -/
theorem c3_batch_limit_rejected (addresses : List String) (kw : Kwargs)
    (net : List (String × Option String) → CallResult)
    (h : 100 < addresses.length) :
    geocode_batch addresses kw net = .error (.valueError "Maximum 100 addresses per batch") := by
  simp [geocode_batch, h]

/-- C3 witness: 101 addresses are rejected, for an arbitrary fixed
network behaviour. -/
theorem c3_witness :
    geocode_batch (List.replicate 101 "東京都千代田区淡路町2-101")
        ⟨none, none, none, none, none⟩ (fun _ => .success (.obj [])) =
      .error (.valueError "Maximum 100 addresses per batch") :=
  c3_batch_limit_rejected _ _ _ (by simp)

/-- C4: `geocode` never raises on a failed call: an HTTP error becomes a
value carrying the message, the numeric status code and at most 500
characters of the response body (a prefix of it), and a transport
failure becomes a value carrying only the failure message. -/
theorem c4_error_values (address : String) (enc : Int) (uk um : Bool)
    (ml : Option String) (datum : String) (eMsg : String) (status : Nat) (text msg : String) :
    geocode address enc uk um ml datum (fun _ => .httpError eMsg status text) =
      .ok (.obj [("error", .str eMsg), ("status_code", .num status 0),
                 ("response_text", .str (strTake text 500))]) ∧
    (strTake text 500).length ≤ 500 ∧
    geocode address enc uk um ml datum (fun _ => .transportError msg) =
      .ok (.obj [("error", .str msg)]) := by
  refine ⟨rfl, ?_, rfl⟩
  show (text.data.take 500).length ≤ 500
  rw [List.length_take]
  exact Nat.min_le_left _ _

/-- C5 counterexample: with the `match_level` keyword supplied as `None`
(exactly what the CLI driver passes when no match level is configured),
`geocode_batch` on a one-element list stores a `match_level` parameter
with a `None` value, while `geocode` omits the parameter — so the two
assembled form-parameter dicts differ. -/
theorem c5_counterexample :
    batchParams ["東京都千代田区淡路町2-101"]
        ⟨some 0, some "JGD", some false, some false, some none⟩ ≠
      geocodeParams "東京都千代田区淡路町2-101" 0 false false none "JGD" := by
  decide

/-- C5 (amended): the form parameters of `geocode_batch` on a
one-element list agree with those of `geocode` for every choice of the
optional parameters in which the `match_level` keyword is either not
supplied at all or supplied as a non-empty string; `geocode_batch` adds
`match_level` whenever the keyword is present, even with a falsy value,
while `geocode` adds it only when truthy. -/
theorem c5_params_agree_amended (a : String) (enc : Int) (uk um : Bool) (d : String)
    (ml : Option String)
    (h : ml = none ∨ ∃ s, ml = some s ∧ s ≠ "") :
    batchParams [a] ⟨some enc, some d, some uk, some um, ml.map some⟩ =
      geocodeParams a enc uk um ml d := by
  rcases h with rfl | ⟨s, rfl, hs⟩
  · cases uk <;> cases um <;> simp [batchParams, geocodeParams, String.intercalate] <;> rfl
  · cases uk <;> cases um <;> simp [batchParams, geocodeParams, String.intercalate, hs] <;> rfl

/-- C5 witness: with `match_level="TOD"` (and kana matching on) the two
parameter dicts coincide. -/
theorem c5_witness :
    batchParams ["東京都千代田区淡路町2-101"]
        ⟨some 0, some "JGD", some true, some false, some (some "TOD")⟩ =
      geocodeParams "東京都千代田区淡路町2-101" 0 true false (some "TOD") "JGD" :=
  c5_params_agree_amended "東京都千代田区淡路町2-101" 0 true false "JGD" (some "TOD")
    (Or.inr ⟨"TOD", rfl, by decide⟩)

/-- C6 counterexample: on a successful response with an empty
`result.item` array, `geocode_batch` returns the empty list itself — a
value with no `error` key anywhere — not an error value. -/
theorem c6_counterexample :
    geocode_batch ["東京都", "大阪市"] ⟨none, none, none, none, none⟩
        (fun _ => .success (.obj [("result", .obj [("item", .arr [])])])) =
      .ok (.arr []) ∧
    hasErrorKey (.arr []) = false :=
  ⟨rfl, rfl⟩

/-- C6 (amended): a successful response with zero items yields the
`error`-keyed value "No results found" from `geocode`, but
`geocode_batch` returns the empty item array unchanged, with no error
value. -/
theorem c6_empty_result_amended (a : String) (enc : Int) (uk um : Bool)
    (ml : Option String) (d : String) (addrs : List String) (kw : Kwargs)
    (m r : List (String × Json))
    (hres : List.lookup "result" m = some (.obj r))
    (hitem : List.lookup "item" r = some (.arr []))
    (hlen : addrs.length ≤ 100) :
    geocode a enc uk um ml d (fun _ => .success (.obj m)) =
      .ok (.obj [("error", .str "No results found")]) ∧
    geocode_batch addrs kw (fun _ => .success (.obj m)) = .ok (.arr []) := by
  have hn : ¬ 100 < addrs.length := by omega
  constructor
  · simp [geocode, geocodeRespond, geocodeSuccess, pyContains, pyGetStr, pyTruthy,
      hres, hitem]
  · simp [geocode_batch, hn, batchRespond, pyContains, pyGetStr, hres, hitem]

/-- C6 witness: the amended behaviour at the body
`{"result": {"item": []}}`. -/
theorem c6_witness :
    geocode "京都市" 0 false false none "JGD"
        (fun _ => .success (.obj [("result", .obj [("item", .arr [])])])) =
      .ok (.obj [("error", .str "No results found")]) ∧
    geocode_batch ["京都市"] ⟨none, none, none, none, none⟩
        (fun _ => .success (.obj [("result", .obj [("item", .arr [])])])) =
      .ok (.arr []) :=
  c6_empty_result_amended "京都市" 0 false false none "JGD" ["京都市"]
    ⟨none, none, none, none, none⟩
    [("result", .obj [("item", .arr [])])] [("item", .arr [])] rfl rfl (by decide)

/-- C7 counterexample: the body `{"result": {"item": "ab"}}` does not
contain a `result.item` array, yet `geocode` does not pass it through:
the guard only tests key presence, so the string is indexed and its
first character `"a"` is returned. -/
theorem c7_counterexample :
    geocode "東京都" 0 false false none "JGD"
        (fun _ => .success (.obj [("result", .obj [("item", .str "ab")])])) =
      .ok (.str "a") ∧
    Json.str "a" ≠ Json.obj [("result", .obj [("item", .str "ab")])] :=
  ⟨rfl, fun h => Json.noConfusion h⟩

/-- C7 (amended): `geocode` passes a successful parsed body through
unchanged whenever the `result.item` path is absent in Python's
membership sense: the body object has no `result` key, or the test
`'item' in data['result']` evaluates to false for its `result` value —
whatever that value's type (an object without an `item` key, a list
without an `"item"` element, a string without an `"item"` substring).
When `result.item` is present but not an array, the body is not passed
through. -/
theorem c7_passthrough_amended (a : String) (enc : Int) (uk um : Bool)
    (ml : Option String) (d : String) (m : List (String × Json))
    (h : List.lookup "result" m = none ∨
         ∃ v, List.lookup "result" m = some v ∧ pyContains v "item" = .ok false) :
    geocode a enc uk um ml d (fun _ => .success (.obj m)) = .ok (.obj m) := by
  rcases h with h | ⟨v, hv, hc⟩
  · simp [geocode, geocodeRespond, geocodeSuccess, pyContains, h]
  · have h1 : pyContains (Json.obj m) "result" = .ok true := by simp [pyContains, hv]
    simp [geocode, geocodeRespond, geocodeSuccess, pyGetStr, h1, hv, hc]

/-- C7 witness: the body `{"status": "ok"}` is passed through
unchanged, and so is `{"result": ["x"]}`, whose `result` value is a
list not containing `"item"`. -/
theorem c7_witness :
    geocode "東京都" 0 false false none "JGD"
        (fun _ => .success (.obj [("status", .str "ok")])) =
      .ok (.obj [("status", .str "ok")]) ∧
    geocode "東京都" 0 false false none "JGD"
        (fun _ => .success (.obj [("result", .arr [.str "x"])])) =
      .ok (.obj [("result", .arr [.str "x"])]) :=
  ⟨c7_passthrough_amended "東京都" 0 false false none "JGD"
      [("status", .str "ok")] (Or.inl rfl),
   c7_passthrough_amended "東京都" 0 false false none "JGD"
      [("result", .arr [.str "x"])] (Or.inr ⟨.arr [.str "x"], rfl, rfl⟩)⟩

/-- C8 counterexample: when the expected shape is absent because
`result.item` is present but not an array — body
`{"result": {"item": "ab"}}` — `geocode_batch` does not return a
one-element list wrapping the raw body: the key-presence guard passes
and the bare string `"ab"` is returned, not a list at all. -/
theorem c8_counterexample :
    geocode_batch ["東京都"] ⟨none, none, none, none, none⟩
        (fun _ => .success (.obj [("result", .obj [("item", .str "ab")])])) =
      .ok (.str "ab") ∧
    Json.str "ab" ≠ Json.arr [.obj [("result", .obj [("item", .str "ab")])]] :=
  ⟨rfl, fun h => Json.noConfusion h⟩

/-- C8 (amended): `geocode_batch` joins the addresses with commas into
the single `word` form parameter of its one combined request; on a
success body whose `result.item` is an array it returns the full item
array; it returns a one-element list wrapping the raw body only when
the `result.item` path is absent in Python's membership sense (no
`result` key, or `'item' in data['result']` false) — when `result.item`
is present but not an array, the bare item value is returned un-wrapped;
and on an HTTP or transport failure it returns a one-element list
wrapping the error value. -/
theorem c8_batch_amended (addrs : List String) (kw : Kwargs)
    (hlen : addrs.length ≤ 100) :
    List.lookup "word" (batchParams addrs kw) =
      some (some (String.intercalate "," addrs)) ∧
    (∀ (m r : List (String × Json)) (items : List Json),
        List.lookup "result" m = some (.obj r) →
        List.lookup "item" r = some (.arr items) →
        geocode_batch addrs kw (fun _ => .success (.obj m)) = .ok (.arr items)) ∧
    (∀ m : List (String × Json),
        (List.lookup "result" m = none ∨
         ∃ v, List.lookup "result" m = some v ∧ pyContains v "item" = .ok false) →
        geocode_batch addrs kw (fun _ => .success (.obj m)) = .ok (.arr [.obj m])) ∧
    (∀ (m : List (String × Json)) (v item : Json),
        List.lookup "result" m = some v →
        pyContains v "item" = .ok true →
        pyGetStr v "item" = .ok item →
        geocode_batch addrs kw (fun _ => .success (.obj m)) = .ok item) ∧
    (∀ (eMsg : String) (status : Nat) (text : String),
        geocode_batch addrs kw (fun _ => .httpError eMsg status text) =
          .ok (.arr [errorDetail eMsg status text])) ∧
    (∀ msg : String,
        geocode_batch addrs kw (fun _ => .transportError msg) =
          .ok (.arr [.obj [("error", .str msg)]])) := by
  have hn : ¬ 100 < addrs.length := by omega
  refine ⟨?_, ?_, ?_, ?_, ?_, ?_⟩
  · simp [batchParams, List.lookup]
  · intro m r items hr hi
    simp [geocode_batch, hn, batchRespond, pyContains, pyGetStr, hr, hi]
  · intro m h
    rcases h with h | ⟨v, hv, hc⟩
    · simp [geocode_batch, hn, batchRespond, pyContains, h]
    · have h1 : pyContains (Json.obj m) "result" = .ok true := by simp [pyContains, hv]
      simp [geocode_batch, hn, batchRespond, pyGetStr, h1, hv, hc]
  · intro m v item hv hc hg
    have h1 : pyContains (Json.obj m) "result" = .ok true := by simp [pyContains, hv]
    have h2 : pyGetStr (Json.obj m) "result" = .ok v := by simp [pyGetStr, hv]
    simp [geocode_batch, hn, batchRespond, h1, h2, hc, hg]
  · intro eMsg status text
    simp [geocode_batch, hn, batchRespond]
  · intro msg
    simp [geocode_batch, hn, batchRespond]

/-- C8 witness: two addresses are joined as `"東京都,大阪市"`, a
transport failure yields a one-element list with the error value, and a
body without a `result` key is wrapped in a one-element list. -/
theorem c8_witness :
    List.lookup "word" (batchParams ["東京都", "大阪市"] ⟨none, none, none, none, none⟩) =
      some (some "東京都,大阪市") ∧
    geocode_batch ["東京都", "大阪市"] ⟨none, none, none, none, none⟩
        (fun _ => .transportError "Connection refused") =
      .ok (.arr [.obj [("error", .str "Connection refused")]]) ∧
    geocode_batch ["東京都", "大阪市"] ⟨none, none, none, none, none⟩
        (fun _ => .success (.obj [("status", .str "ok")])) =
      .ok (.arr [.obj [("status", .str "ok")]]) :=
  have h := c8_batch_amended ["東京都", "大阪市"] ⟨none, none, none, none, none⟩ (by decide)
  ⟨h.1, h.2.2.2.2.2 "Connection refused",
   h.2.2.1 [("status", .str "ok")] (Or.inl rfl)⟩

/-- C9: `format_single_result` emits the fixed-order, field-presence
gated lines of §4.2 (`specLines`): each line appears only when its
source field is present, and absent fields contribute no line and no
placeholder text. -/
theorem c9_format_field_gating (m : List (String × Json))
    (h1 : matchPosOk m) (h2 : buildingOk m) :
    format_single_result (.obj m) = .ok (String.intercalate "\n" (specLines m)) :=
  fsr_ok m h1 h2

/-- C9 witness: an item with only `address`, `match_position` and
`post_code` yields exactly the address, longitude, latitude and
postal-code lines. -/
theorem c9_witness :
    format_single_result (.obj [("address", .str "東京都千代田区丸の内1-9"),
        ("match_position", .arr [.num 13977 2, .num 3569 2]),
        ("post_code", .str "100-0005")]) =
      .ok "住所: 東京都千代田区丸の内1-9\n経度: 139.77\n緯度: 35.69\n郵便番号: 100-0005" := by
  have h := c9_format_field_gating
    [("address", .str "東京都千代田区丸の内1-9"),
     ("match_position", .arr [.num 13977 2, .num 3569 2]),
     ("post_code", .str "100-0005")] ?h1 ?h2
  case h1 =>
    intro v hv
    simp [List.lookup] at hv
    subst hv
    exact Or.inr ⟨_, _, _, rfl⟩
  case h2 =>
    intro v hv
    simp [List.lookup] at hv
  exact h.trans (by rfl)

/-- C10 counterexample: an item whose `match_position` is a non-empty
list with fewer than two elements makes `format_single_result` raise an
`IndexError` (reading index 1), so the function is not total on such
inputs. -/
theorem c10_counterexample :
    format_single_result (.obj [("match_position", .arr [.num 13977 2])]) =
      .error .indexError :=
  rfl

/-- C10 (amended): `format_single_result` returns a string on every
item dict whose `match_position`, when present and truthy, is a list of
at least two elements, and whose `building_info`, when present and
truthy, is a dict; a one-element `match_position` instead raises an
index error. -/
theorem c10_total_amended (m : List (String × Json))
    (h1 : matchPosOk m) (h2 : buildingOk m) :
    ∃ s, format_single_result (.obj m) = .ok s :=
  ⟨_, fsr_ok m h1 h2⟩

/-- C10 witness: totality at an item with prefecture and building
fields. -/
theorem c10_witness :
    ∃ s, format_single_result (.obj [("address2", .str "東京都"),
        ("building_info", .obj [("zid", .str "Z123")])]) = .ok s := by
  apply c10_total_amended
  · intro v hv
    simp [List.lookup] at hv
  · intro v hv
    simp [List.lookup] at hv
    subst hv
    exact Or.inr ⟨_, rfl⟩
